import Mathlib

/-!
Shallow embedding of the authentication core of the repository
(`src/routes/auth.js`, `src/middleware/auth.js`) together with the models
of its external collaborators (the `jsonwebtoken` signer, the `otplib`
TOTP engine, `bcrypt`) that the route handlers invoke.  All definitions
are executable; stateful handlers are state-passing functions on a `DB`
record mirroring the Prisma tables (`User`, `Session`).
-/

set_option maxRecDepth 40000

namespace Hw

/-- A user row, as created by `client.user.create` in `/auth/register`
(`src/routes/auth.js`): id, name, unique email, bcrypt password digest,
role string, verification status string. -/
structure User where
  id : Nat
  name : String
  email : String
  password : String
  role : String
  status : String
  deriving Repr, DecidableEq

/-- A session row, as in the Prisma `Session` table
(`src/prisma/migrations/.../migration.sql`): id, ip, device-data blob,
owning user id. -/
structure Session where
  id : Nat
  ip : String
  data : String
  userId : Nat
  deriving Repr, DecidableEq

/-- The persistent state the auth routes touch: the `User` and `Session`
tables, plus fresh-id counters standing for the SQL `SERIAL` columns. -/
structure DB where
  users : List User
  sessions : List Session
  nextUserId : Nat
  nextSessionId : Nat
  deriving Repr, DecidableEq

/-- `client.user.findUnique({ where: { email } })`: `email` is a unique
column, modelled as the first (hence only) list entry with that email. -/
def findUserByEmail (db : DB) (email : String) : Option User :=
  db.users.find? (fun u => u.email = email)

/-- `client.session.findFirst({ where: { ip, userId } })` from `/auth/login`. -/
def findSession (db : DB) (ip : String) (userId : Nat) : Option Session :=
  db.sessions.find? (fun s => s.ip = ip && s.userId = userId)

/-- Model of `bcrypt.hashSync(password, 10)`: an injective digest tag.
The routes only ever compare digests through `bcryptCompare`, so the
digest's shape is irrelevant; only `compare(p, hash(p)) = (p = p')`
behaviour is used. -/
def bcryptHash (password : String) : String :=
  "bcrypt$2b$10$" ++ password

/-- Model of `bcrypt.compare(password, digest)`: true exactly when the
digest was produced from this password. -/
def bcryptCompare (password digest : String) : Bool :=
  digest = bcryptHash password

/-- Model of `JSON.stringify(deviceDetector.parse(userAgent))` from
`/auth/login`: an opaque-to-the-core blob derived from the user agent.
No claim depends on its contents, only on when it is written. -/
def deviceData (userAgent : String) : String :=
  "device:" ++ userAgent

/-! ## JWT model (`jsonwebtoken`)

A signed token is modelled as its decoded content together with the
secret it was signed with; `jwtVerify` succeeds exactly when the secret
matches and the token is unexpired, returning the embedded claims. -/

/-- The claims payload the auth routes sign: `{ id, role }` for access
tokens, `{ id }` (no role) for refresh tokens. -/
structure Claims where
  id : Nat
  role : Option String
  deriving Repr, DecidableEq

/-- A signed JWT: payload claims, the signing secret, and the expiry
instant (Unix seconds) computed by `jsonwebtoken` from `expiresIn`. -/
structure JwtToken where
  claims : Claims
  secret : String
  exp : Nat
  deriving Repr, DecidableEq

/-- `jsonwebtoken`'s `expiresIn` shorthand (the `ms` package): a decimal
number followed by a unit — `s` seconds, `m` minutes, `h` hours, `d`
days; a bare number means seconds. Returns `none` on malformed input. -/
def parseExpiresIn (s : String) : Option Nat :=
  let digits := s.data.takeWhile Char.isDigit
  let unit := s.data.dropWhile Char.isDigit
  if digits.isEmpty then none
  else
    let n := digits.foldl (fun acc c => acc * 10 + (c.toNat - 48)) 0
    match unit with
    | [] => some n
    | ['s'] => some n
    | ['m'] => some (n * 60)
    | ['h'] => some (n * 3600)
    | ['d'] => some (n * 86400)
    | _ => none

/-- `jwt.sign(payload, secret, { expiresIn })` at issue time `now`
(Unix seconds). The two literals used by the source always parse, so a
malformed `expiresIn` is mapped to immediate expiry. -/
def jwtSign (payload : Claims) (secret : String) (expiresIn : String) (now : Nat) : JwtToken :=
  { claims := payload, secret := secret, exp := now + (parseExpiresIn expiresIn).getD 0 }

/-- `jwt.verify(token, secret)` at time `now`: checks the signature
(secret equality in this model) and expiry, returning the decoded
claims, or `none` where the library throws. -/
def jwtVerify (tok : JwtToken) (secret : String) (now : Nat) : Option Claims :=
  if tok.secret = secret ∧ now < tok.exp then some tok.claims else none

/-- `generateAccessToken` from `src/routes/auth.js`:
`jwt.sign({ id: user.id, role: user.role }, "soz", { expiresIn: "15m" })`. -/
def generateAccessToken (user : User) (now : Nat) : JwtToken :=
  jwtSign { id := user.id, role := some user.role } "soz" "15m" now

/-- `generateRefreshToken` from `src/routes/auth.js`:
`jwt.sign({ id: user.id }, "resoz", { expiresIn: "7d" })`. -/
def generateRefreshToken (user : User) (now : Nat) : JwtToken :=
  jwtSign { id := user.id, role := none } "resoz" "7d" now

/-! ## TOTP engine (`otplib`)

The routes call `totp.generate(email + "soz")` and
`totp.check(otp, email + "soz")`. `otplib`'s defaults are RFC 6238 TOTP:
HMAC-SHA-1, 30-second step, 6 digits, verification window 0 (equality
with the current step's code). SHA-1 and HMAC are implemented below over
byte lists with `Nat` words reduced mod `2^32`. -/

/-- Truncation to a 32-bit word. -/
def w32 (n : Nat) : Nat := n % 4294967296

/-- 32-bit left rotation by `k`. -/
def rotl (k n : Nat) : Nat := w32 ((n <<< k) ||| (n >>> (32 - k)))

/-- SHA-1 padding: append `0x80`, zero bytes to 56 mod 64, then the
message bit length as 8 big-endian bytes. -/
def sha1pad (msg : List Nat) : List Nat :=
  let bitLen := msg.length * 8
  let padZeros := (119 - msg.length % 64) % 64
  msg ++ [0x80] ++ List.replicate padZeros 0 ++
    [(bitLen >>> 56) &&& 0xff, (bitLen >>> 48) &&& 0xff, (bitLen >>> 40) &&& 0xff,
     (bitLen >>> 32) &&& 0xff, (bitLen >>> 24) &&& 0xff, (bitLen >>> 16) &&& 0xff,
     (bitLen >>> 8) &&& 0xff, bitLen &&& 0xff]

/-- Group bytes into big-endian 32-bit words. -/
def bytesToWords : List Nat → List Nat
  | a :: b :: c :: d :: rest =>
    ((a <<< 24) ||| (b <<< 16) ||| (c <<< 8) ||| d) :: bytesToWords rest
  | _ => []

/-- Split a word list into 16-word blocks, with the list length as
structural fuel. -/
def chunks16Aux : Nat → List Nat → List (List Nat)
  | 0, _ => []
  | _, [] => []
  | fuel + 1, ws => (ws.take 16) :: chunks16Aux fuel (ws.drop 16)

/-- Split a word list into 16-word blocks. -/
def chunks16 (ws : List Nat) : List (List Nat) :=
  chunks16Aux ws.length ws

/-- SHA-1 round function. -/
def sha1f (t b c d : Nat) : Nat :=
  if t < 20 then (b &&& c) ||| ((b ^^^ 0xffffffff) &&& d)
  else if t < 40 then b ^^^ c ^^^ d
  else if t < 60 then (b &&& c) ||| (b &&& d) ||| (c &&& d)
  else b ^^^ c ^^^ d

/-- SHA-1 round constants. -/
def sha1k (t : Nat) : Nat :=
  if t < 20 then 0x5A827999
  else if t < 40 then 0x6ED9EBA1
  else if t < 60 then 0x8F1BBCDC
  else 0xCA62C1D6

/-- The 80 SHA-1 rounds, computing the message schedule on the fly.
`blockRest` holds the not-yet-consumed words of the 16-word block;
`window` holds the last (up to) 16 schedule words, newest first, so
`W[t-3]`, `W[t-8]`, `W[t-14]`, `W[t-16]` sit at indices 2, 7, 13, 15. -/
def sha1loop : Nat → Nat → List Nat → List Nat →
    Nat × Nat × Nat × Nat × Nat → Nat × Nat × Nat × Nat × Nat
  | 0, _, _, _, st => st
  | fuel + 1, t, blockRest, window, (a, b, c, d, e) =>
    let wt := match blockRest with
      | x :: _ => x
      | [] => rotl 1 ((window.getD 2 0) ^^^ (window.getD 7 0) ^^^
          (window.getD 13 0) ^^^ (window.getD 15 0))
    let temp := w32 (rotl 5 a + sha1f t b c d + e + sha1k t + wt)
    sha1loop fuel (t + 1) blockRest.tail (wt :: window.take 15)
      (temp, a, rotl 30 b, c, d)

/-- One SHA-1 block compression. -/
def sha1compress (h : Nat × Nat × Nat × Nat × Nat) (block : List Nat) :
    Nat × Nat × Nat × Nat × Nat :=
  let (h0, h1, h2, h3, h4) := h
  let (a, b, c, d, e) := sha1loop 80 0 block [] (h0, h1, h2, h3, h4)
  (w32 (h0 + a), w32 (h1 + b), w32 (h2 + c), w32 (h3 + d), w32 (h4 + e))

/-- Big-endian bytes of a 32-bit word. -/
def wordBytes (n : Nat) : List Nat :=
  [(n >>> 24) &&& 0xff, (n >>> 16) &&& 0xff, (n >>> 8) &&& 0xff, n &&& 0xff]

/-- SHA-1 of a byte list, as a 20-byte list. -/
def sha1 (msg : List Nat) : List Nat :=
  let blocks := chunks16 (bytesToWords (sha1pad msg))
  let (h0, h1, h2, h3, h4) :=
    blocks.foldl sha1compress (0x67452301, 0xEFCDAB89, 0x98BADCFE, 0x10325476, 0xC3D2E1F0)
  wordBytes h0 ++ wordBytes h1 ++ wordBytes h2 ++ wordBytes h3 ++ wordBytes h4

/-- HMAC-SHA-1 (RFC 2104) with a 64-byte block size. -/
def hmacSha1 (key msg : List Nat) : List Nat :=
  let k0 := if 64 < key.length then sha1 key else key
  let k := k0 ++ List.replicate (64 - k0.length) 0
  sha1 ((k.map (· ^^^ 0x5c)) ++ sha1 ((k.map (· ^^^ 0x36)) ++ msg))

/-- A counter as 8 big-endian bytes. -/
def counterBytes (c : Nat) : List Nat :=
  [(c >>> 56) &&& 0xff, (c >>> 48) &&& 0xff, (c >>> 40) &&& 0xff, (c >>> 32) &&& 0xff,
   (c >>> 24) &&& 0xff, (c >>> 16) &&& 0xff, (c >>> 8) &&& 0xff, c &&& 0xff]

/-- Zero-pad a numeric string on the left to 6 characters. -/
def pad6 (s : String) : String :=
  String.mk (List.replicate (6 - s.length) '0') ++ s

/-- HOTP (RFC 4226) with 6 digits: HMAC the counter, dynamic
truncation, reduce mod 10^6. -/
def hotp (key : List Nat) (counter : Nat) : String :=
  let d := hmacSha1 key (counterBytes counter)
  let off := (d.getD 19 0) &&& 0xf
  let bin := (((d.getD off 0) &&& 0x7f) <<< 24) ||| ((d.getD (off + 1) 0) <<< 16) |||
    ((d.getD (off + 2) 0) <<< 8) ||| (d.getD (off + 3) 0)
  pad6 (toString (bin % 1000000))

/-- The bytes of a secret string. The secrets the routes build are ASCII
(email plus `"soz"`), where code points coincide with UTF-8 bytes. -/
def strBytes (s : String) : List Nat := s.data.map Char.toNat

/-- `totp.generate(secret)` at Unix time `now`: HOTP of the 30-second
step counter (otplib defaults: step 30, 6 digits, SHA-1). -/
def totpGenerate (secret : String) (now : Nat) : String :=
  hotp (strBytes secret) (now / 30)

/-- `totp.check(token, secret)` at Unix time `now`: recompute the
current step's code and compare (otplib default window 0). -/
def totpCheck (token : String) (secret : String) (now : Nat) : Bool :=
  token = totpGenerate secret now

/-! ## Authentication and authorization gates (`src/middleware/auth.js`) -/

/-- The bearer-token part of the `Authorization` header as the gate sees
it after `req.header("Authorization")?.split(" ")[1]`: header absent,
header present but with no token part, or a token. A present-but-
unparseable token string makes `jwt.verify` throw, which coincides with
the failed-verification branch, so it is covered by `bearer` with a
non-matching secret. -/
inductive AuthHeader where
  | missing : AuthHeader
  | tokenAbsent : AuthHeader
  | bearer : JwtToken → AuthHeader
  deriving Repr, DecidableEq

/-- Outcome of a middleware: an early JSON error response, or control
passed to the next handler (with the request principal for the auth
gate). -/
inductive GateResult where
  | reject (status : Nat) (message : String)
  | proceed (principal : Claims)
  deriving Repr, DecidableEq

/-- `Middleware` from `src/middleware/auth.js`: extract the bearer
token, 401 if absent, verify against the access secret `"soz"`, 401 on
verification failure, else attach the decoded claims and continue. -/
def Middleware (h : AuthHeader) (now : Nat) : GateResult :=
  match h with
  | .missing => .reject 401 "Token not found."
  | .tokenAbsent => .reject 401 "Token not found."
  | .bearer tok =>
    match jwtVerify tok "soz" now with
    | some decoded => .proceed decoded
    | none => .reject 401 "Invalid token."

/-- The authentication gate with the request-scoped state threaded
through, mirroring that the handler chain owns the database but
`Middleware` never touches it: the pair is the gate's decision and the
(unchanged) state. -/
def MiddlewareSt (db : DB) (h : AuthHeader) (now : Nat) : GateResult × DB :=
  (Middleware h now, db)

/-- `RoleMiddleware(roles)` from `src/middleware/auth.js`: 401 when no
principal was attached, 403 when `roles.includes(req.user.role)` is
false, else continue. A principal decoded from a token without a `role`
claim has `role = none`, and `Array.prototype.includes(undefined)` on a
list of strings is false. -/
def RoleMiddleware (roles : List String) (user : Option Claims) : GateResult :=
  match user with
  | none => .reject 401 "Token is missing or invalid."
  | some u =>
    match u.role with
    | some r =>
      if roles.contains r then .proceed u
      else .reject 403 "You do not have permission to perform this action."
    | none => .reject 403 "You do not have permission to perform this action."

/-! ## Route handlers (`src/routes/auth.js`)

Each handler is a function from the database and the request to a
response and the next database. Requests carry `now`, the Unix time at
which the handler runs (used by the TOTP check and token signing). -/

/-- Body and context of `POST /auth/register`. -/
structure RegisterReq where
  name : String
  email : String
  password : String
  role : Option String
  now : Nat
  deriving Repr, DecidableEq

/-- Whitespace-trim of a character list at both ends. -/
def trimChars (l : List Char) : List Char :=
  ((l.dropWhile Char.isWhitespace).reverse.dropWhile Char.isWhitespace).reverse

/-- Split a character list at every occurrence of a separator. -/
def splitOnChar (sep : Char) (l : List Char) : List (List Char) :=
  l.foldr
    (fun c acc =>
      if c = sep then [] :: acc
      else
        match acc with
        | h :: t => (c :: h) :: t
        | [] => [[c]])
    [[]]

/-- Model of joi's `email()` check: one `@`, a nonempty local part, and
a domain of at least two nonempty dot-separated labels. The claims do
not depend on the exact boundary of address validity, only on whether
validation as a whole passed. -/
def joiEmailOk (s : String) : Bool :=
  match splitOnChar '@' s.data with
  | [lp, dom] =>
    let labels := splitOnChar '.' dom
    !lp.isEmpty && decide (2 ≤ labels.length) && labels.all (fun l => !l.isEmpty)
  | _ => false

/-- The joi schema of `/auth/register`: `name` trimmed length 3–50,
`email` a valid address, `password` trimmed length at least 6, `role`
absent or one of `"user"`, `"super_admin"`, `"admin"` (joi `convert`
trims the checked values; the handler keeps using the raw ones). -/
def registerValid (name email password : String) (role : Option String) : Bool :=
  decide (3 ≤ (trimChars name.data).length) &&
  decide ((trimChars name.data).length ≤ 50) &&
  joiEmailOk email &&
  decide (6 ≤ (trimChars password.data).length) &&
  (match role with
   | none => true
   | some r => ["user", "super_admin", "admin"].contains r)

/-- Response of `POST /auth/register`. -/
inductive RegisterRes where
  | err (status : Nat) (message : String)
  | created (name email role : String)
  deriving Repr, DecidableEq

/-- `POST /auth/register`: validate, reject duplicate email, send the
OTP mail (fire-and-forget, no database effect), create the user with
the bcrypt digest, `role || "user"`, and status `"pending"`; 201. -/
def register (db : DB) (req : RegisterReq) : RegisterRes × DB :=
  if !registerValid req.name req.email req.password req.role then
    (.err 400 "Validation error", db)
  else
    match findUserByEmail db req.email with
    | some _ => (.err 400 "User already exists", db)
    | none =>
      let newUser : User :=
        { id := db.nextUserId, name := req.name, email := req.email,
          password := bcryptHash req.password,
          role := req.role.getD "user", status := "pending" }
      (.created newUser.name newUser.email newUser.role,
       { db with users := db.users ++ [newUser], nextUserId := db.nextUserId + 1 })

/-- Body and context of `POST /auth/verify`. -/
structure VerifyReq where
  email : String
  otp : String
  now : Nat
  deriving Repr, DecidableEq

/-- Response of `POST /auth/verify`. -/
inductive VerifyRes where
  | err (status : Nat) (message : String)
  | ok (message : String)
  deriving Repr, DecidableEq

/-- `POST /auth/verify`: `totp.check(otp, email + "soz")` first (400 on
failure), then `findUnique` by email (404 when absent), then
`user.update` setting status to `"active"`; 200. -/
def verifyHandler (db : DB) (req : VerifyReq) : VerifyRes × DB :=
  if !totpCheck req.otp (req.email ++ "soz") req.now then
    (.err 400 "Invalid OTP", db)
  else
    match findUserByEmail db req.email with
    | none => (.err 404 "User with this email not found", db)
    | some _ =>
      (.ok "User verified!",
       { db with users := db.users.map fun u =>
          if u.email = req.email then { u with status := "active" } else u })

/-- Body and context of `POST /auth/login`. -/
structure LoginReq where
  ip : String
  email : String
  password : String
  userAgent : String
  now : Nat
  deriving Repr, DecidableEq

/-- Response of `POST /auth/login`: an error status with message, or
200 with both freshly minted tokens. -/
inductive LoginRes where
  | err (status : Nat) (message : String)
  | ok (message : String) (accessToken refreshToken : JwtToken)
  deriving Repr, DecidableEq

/-- `POST /auth/login`: 404 when no user has the email, 400 when status
is not `"active"`, 400 when `bcrypt.compare` fails; otherwise
`findFirst` the (ip, userId) session, creating one with the parsed
device data only when none exists, and answer 200 with an access and a
refresh token. -/
def login (db : DB) (req : LoginReq) : LoginRes × DB :=
  match findUserByEmail db req.email with
  | none => (.err 404 "User with this email not found", db)
  | some user =>
    if user.status ≠ "active" then (.err 400 "User is not verified", db)
    else if !bcryptCompare req.password user.password then
      (.err 400 "Incorrect password", db)
    else
      let db2 :=
        match findSession db req.ip user.id with
        | some _ => db
        | none =>
          { db with
            sessions := db.sessions ++
              [{ id := db.nextSessionId, ip := req.ip,
                 data := deviceData req.userAgent, userId := user.id }],
            nextSessionId := db.nextSessionId + 1 }
      (.ok "You are logged in"
        (generateAccessToken user req.now) (generateRefreshToken user req.now), db2)

/-- Response of `POST /auth/send-otp`. -/
inductive SendOtpRes where
  | err (status : Nat) (message : String)
  | ok (message : String)
  deriving Repr, DecidableEq

/-- `POST /auth/send-otp`: 404 when no user has the email; otherwise
generate the OTP, mail it (fire-and-forget), 200. No database write. -/
def sendOtp (db : DB) (email : String) : SendOtpRes × DB :=
  match findUserByEmail db email with
  | none => (.err 404 "User with this email not found", db)
  | some _ => (.ok ("OTP sent to " ++ email ++ "!"), db)

/-- One invocation of an auth-core operation. `GET /auth/me` and
`GET /auth/my-sessions` only read the store (`findFirst`, `findUnique`,
`findMany`), so their database effect is the identity. -/
inductive Op where
  | opRegister (req : RegisterReq)
  | opVerify (req : VerifyReq)
  | opLogin (req : LoginReq)
  | opSendOtp (email : String)
  | opMe (h : AuthHeader) (ip : String) (now : Nat)
  | opMySessions (h : AuthHeader) (now : Nat)
  deriving Repr, DecidableEq

/-- The database after one auth-core operation. -/
def applyOp (db : DB) : Op → DB
  | .opRegister req => (register db req).2
  | .opVerify req => (verifyHandler db req).2
  | .opLogin req => (login db req).2
  | .opSendOtp email => (sendOtp db email).2
  | .opMe _ _ _ => db
  | .opMySessions _ _ => db

/-- The session rows matching a (userId, ip) pair. -/
def sessionsFor (db : DB) (userId : Nat) (ip : String) : List Session :=
  db.sessions.filter (fun s => s.ip = ip && s.userId = userId)

/-- How many session rows match a (userId, ip) pair. -/
def countSessions (db : DB) (userId : Nat) (ip : String) : Nat :=
  (sessionsFor db userId ip).length

/-- The database after `n` sequential logins with the same request. -/
def loginN (n : Nat) (db : DB) (req : LoginReq) : DB :=
  match n with
  | 0 => db
  | m + 1 => loginN m (login db req).2 req

/-! ## Concrete data for witnesses -/

/-- A verified demo user. -/
def demoUser : User :=
  { id := 1, name := "Alice", email := "a@b.c", password := bcryptHash "secret1",
    role := "user", status := "active" }

/-- A one-user database. -/
def demoDB : DB :=
  { users := [demoUser], sessions := [], nextUserId := 2, nextSessionId := 1 }

/-- A login request matching `demoUser`. -/
def demoLoginReq : LoginReq :=
  { ip := "203.0.113.7", email := "a@b.c", password := "secret1",
    userAgent := "curl/8.0", now := 1000 }

/-- A registration request carrying the registrable role
`"super_admin"`. -/
def demoRegReq : RegisterReq :=
  { name := "Bob", email := "b@x.io", password := "hunter2",
    role := some "super_admin", now := 0 }

/-- An unverified demo user. -/
def demoPendingUser : User :=
  { id := 3, name := "Carl", email := "c@y.io", password := bcryptHash "pass123",
    role := "user", status := "pending" }

/-- A database holding only the unverified demo user. -/
def demoPendingDB : DB :=
  { users := [demoPendingUser], sessions := [], nextUserId := 4, nextSessionId := 1 }

/-- A verification request for the pending demo user carrying the OTP
that is valid for their email at time 50. -/
def demoVerifyReq : VerifyReq :=
  { email := "c@y.io", otp := totpGenerate "c@y.iosoz" 50, now := 50 }

/-! ## Claim theorems -/

/-- C2: every login that fails a check — unknown email (404), status
not active (400), password mismatch (400) — returns a descriptive error
with no tokens and leaves the database unchanged (in particular no
session row is created); only when every check passes does the handler
answer 200 with both tokens. -/
theorem login_checks_and_tokens (db : DB) (req : LoginReq) (u : User) :
    (findUserByEmail db req.email = none →
      login db req = (.err 404 "User with this email not found", db)) ∧
    (findUserByEmail db req.email = some u → u.status ≠ "active" →
      login db req = (.err 400 "User is not verified", db)) ∧
    (findUserByEmail db req.email = some u → u.status = "active" →
      bcryptCompare req.password u.password = false →
      login db req = (.err 400 "Incorrect password", db)) ∧
    (findUserByEmail db req.email = some u → u.status = "active" →
      bcryptCompare req.password u.password = true →
      (login db req).1 = .ok "You are logged in" (generateAccessToken u req.now)
        (generateRefreshToken u req.now)) := by
  refine ⟨fun h0 => ?_, fun hu hs => ?_, fun hu hs hp => ?_, fun hu hs hp => ?_⟩
  · simp [login, h0]
  · simp [login, hu, hs]
  · simp [login, hu, hs, hp]
  · cases hfs : findSession db req.ip u.id <;> simp [login, hu, hs, hp, hfs]

/-- C2 witness: on a database with a verified user, a login with the
correct password answers 200 with the two tokens, via
`login_checks_and_tokens` at concrete inputs. -/
theorem login_checks_and_tokens_witness :
    (login demoDB demoLoginReq).1 =
      .ok "You are logged in" (generateAccessToken demoUser 1000)
        (generateRefreshToken demoUser 1000) :=
  (login_checks_and_tokens demoDB demoLoginReq demoUser).2.2.2
    (by decide) rfl (by decide)

/-- C10: a user created by `/auth/register` has role "user" (the
default), "super_admin" or "admin", never the "super-admin" string the
gates test for; the gate configured with {"admin", "super-admin"}
accepts such a user exactly when their role is "admin", and the
registrable "super_admin" role satisfies neither configured gate. -/
theorem registered_roles_vs_gates (db : DB) (req : RegisterReq) (u : User)
    (hmem : u ∈ (register db req).2.users) (hnew : u ∉ db.users) :
    (u.role = "user" ∨ u.role = "super_admin" ∨ u.role = "admin") ∧
    u.role ≠ "super-admin" ∧
    (req.role = none → u.role = "user") ∧
    (RoleMiddleware ["admin", "super-admin"] (some { id := u.id, role := some u.role })
        = .proceed { id := u.id, role := some u.role } ↔ u.role = "admin") ∧
    (u.role = "super_admin" →
      RoleMiddleware ["admin"] (some { id := u.id, role := some u.role }) =
        .reject 403 "You do not have permission to perform this action." ∧
      RoleMiddleware ["admin", "super-admin"] (some { id := u.id, role := some u.role }) =
        .reject 403 "You do not have permission to perform this action.") := by
  by_cases hv : registerValid req.name req.email req.password req.role
  case neg =>
    simp [register, hv] at hmem
    exact absurd hmem hnew
  case pos =>
    have hset : ∀ r, req.role = some r → (r = "user" ∨ r = "super_admin" ∨ r = "admin") := by
      intro r hr
      simp [registerValid, hr, Bool.and_eq_true] at hv
      simpa using hv.2
    have hrole : u.role = req.role.getD "user" := by
      cases hf : findUserByEmail db req.email with
      | some w =>
        simp [register, hv, hf] at hmem
        exact absurd hmem hnew
      | none =>
        simp [register, hv, hf] at hmem
        rcases hmem with h | h
        · exact absurd h hnew
        · rw [h]
    have hmain : u.role = "user" ∨ u.role = "super_admin" ∨ u.role = "admin" := by
      cases hr : req.role with
      | none => rw [hrole, hr]; left; rfl
      | some r => rw [hrole, hr]; exact hset r hr
    refine ⟨hmain, ?_, ?_, ?_, ?_⟩
    · rcases hmain with h | h | h <;> simp [h]
    · intro hr; rw [hrole, hr]; rfl
    · rcases hmain with h | h | h <;> simp [RoleMiddleware, h]
    · intro hs; constructor <;> simp [RoleMiddleware, hs]

/-- C10 witness: registering with role "super_admin" yields a user the
{"admin", "super-admin"} gate rejects, via `registered_roles_vs_gates`
at concrete inputs. -/
theorem registered_roles_vs_gates_witness :
    RoleMiddleware ["admin", "super-admin"]
      (some { id := 2, role := some "super_admin" }) =
      .reject 403 "You do not have permission to perform this action." :=
  ((registered_roles_vs_gates demoDB demoRegReq
      { id := 2, name := "Bob", email := "b@x.io", password := bcryptHash "hunter2",
        role := "super_admin", status := "pending" }
      (by decide) (by decide)).2.2.2.2 rfl).2

/-- C3: the Authentication Gate answers 401 when the Authorization
header or the bearer token is absent, 401 when signature or expiry
verification fails, and otherwise attaches the decoded claims (id,
role) as the request principal and proceeds; its decision reads no
database state and it leaves the database unchanged. -/
theorem authentication_gate_contract (h : AuthHeader) (tok : JwtToken) (now : Nat)
    (db db2 : DB) :
    Middleware .missing now = .reject 401 "Token not found." ∧
    Middleware .tokenAbsent now = .reject 401 "Token not found." ∧
    Middleware (.bearer tok) now =
      (if tok.secret = "soz" ∧ now < tok.exp then .proceed tok.claims
       else .reject 401 "Invalid token.") ∧
    (MiddlewareSt db h now).1 = (MiddlewareSt db2 h now).1 ∧
    (MiddlewareSt db h now).2 = db := by
  refine ⟨rfl, rfl, ?_, rfl, rfl⟩
  by_cases hc : tok.secret = "soz" ∧ now < tok.exp <;>
    simp [Middleware, jwtVerify, hc]

/-- C5: the access token carries subject id and role and expires 15
minutes after issue time, the refresh token carries subject id only and
expires 7 days after issue time, and the two token kinds are signed
with distinct secrets. -/
theorem token_claims_and_expiry (u : User) (now : Nat) :
    generateAccessToken u now =
      { claims := { id := u.id, role := some u.role }, secret := "soz",
        exp := now + 15 * 60 } ∧
    generateRefreshToken u now =
      { claims := { id := u.id, role := none }, secret := "resoz",
        exp := now + 7 * 24 * 60 * 60 } ∧
    (generateAccessToken u now).secret ≠ (generateRefreshToken u now).secret := by
  have h15 : parseExpiresIn "15m" = some 900 := by decide
  have h7d : parseExpiresIn "7d" = some 604800 := by decide
  refine ⟨?_, ?_, ?_⟩ <;>
    simp [generateAccessToken, generateRefreshToken, jwtSign, h15, h7d]

/-- C7: the Authorization Gate answers 403 when the principal's role is
not in the allowed set and proceeds when it is; a principal with role
"user" is rejected by a gate configured for {"admin"} while one with
role "admin" is accepted. -/
theorem authorization_gate_contract (roles : List String) (u : Claims) (r : String)
    (i : Nat) (hr : u.role = some r) :
    (roles.contains r = false →
      RoleMiddleware roles (some u) =
        .reject 403 "You do not have permission to perform this action.") ∧
    (roles.contains r = true → RoleMiddleware roles (some u) = .proceed u) ∧
    RoleMiddleware ["admin"] (some { id := i, role := some "user" }) =
      .reject 403 "You do not have permission to perform this action." ∧
    RoleMiddleware ["admin"] (some { id := i, role := some "admin" }) =
      .proceed { id := i, role := some "admin" } := by
  refine ⟨fun hn => ?_, fun hy => ?_, by simp [RoleMiddleware], by simp [RoleMiddleware]⟩
  · simp [RoleMiddleware, hr]
    simpa using hn
  · simp [RoleMiddleware, hr]
    simpa using hy

/-- C7 witness: the gate for {"admin"} accepts an "admin" principal,
via `authorization_gate_contract` at a concrete principal. -/
theorem authorization_gate_contract_witness :
    RoleMiddleware ["admin"] (some { id := 1, role := some "admin" }) =
      .proceed { id := 1, role := some "admin" } :=
  (authorization_gate_contract ["admin"] { id := 1, role := some "admin" }
    "admin" 1 rfl).2.1 (by decide)

/-- C9: a refresh token minted at login, presented as the bearer token,
is always rejected by the Authentication Gate with 401, whatever the
current time: it is signed with the refresh secret "resoz" while the
gate verifies only against the access secret "soz". -/
theorem refresh_token_never_authenticates (u : User) (iat now : Nat) :
    Middleware (.bearer (generateRefreshToken u iat)) now =
      .reject 401 "Invalid token." := by
  simp [Middleware, jwtVerify, generateRefreshToken, jwtSign]


/-- Sending an OTP never modifies the database. -/
theorem sendOtp_db_unchanged (db : DB) (email : String) :
    (sendOtp db email).2 = db := by
  unfold sendOtp
  cases hf : findUserByEmail db email <;> simp [hf]

/-- Logging in never modifies the `User` table. -/
theorem login_users_unchanged (db : DB) (req : LoginReq) :
    (login db req).2.users = db.users := by
  unfold login
  cases findUserByEmail db req.email with
  | none => rfl
  | some u =>
    by_cases hs : u.status ≠ "active"
    · simp [hs]
    · by_cases hp : bcryptCompare req.password u.password
      · simp only [hs, hp, if_false, Bool.not_true, ite_false]
        cases hfs : findSession db req.ip u.id <;> simp [hs, hp, hfs]
      · simp [hs, hp]

/-- C6: verification status follows `pending → active` and nothing
else: a user created by registration starts as "pending"; a successful
`/auth/verify` sets the addressed user's status to "active"; and no
auth-core operation produces a user row other than an unchanged prior
row, a prior row with status set to "active", or a fresh "pending" row
whose email belongs to no prior user — so no reset, no deactivation,
and no other transition of an existing user's status is possible. -/
theorem status_state_machine :
    (∀ (db : DB) (req : RegisterReq) (u : User),
      u ∈ (register db req).2.users → u ∉ db.users → u.status = "pending") ∧
    (∀ (db : DB) (req : VerifyReq) (m : String),
      (verifyHandler db req).1 = .ok m →
      ∀ u ∈ (verifyHandler db req).2.users, u.email = req.email →
        u.status = "active") ∧
    (∀ (db : DB) (op : Op), ∀ u2 ∈ (applyOp db op).users,
      (∃ u ∈ db.users, u2 = u ∨ u2 = { u with status := "active" }) ∨
      (u2.status = "pending" ∧ ∀ v ∈ db.users, v.email ≠ u2.email)) := by
  have hreg : ∀ (db : DB) (req : RegisterReq) (u : User),
      u ∈ (register db req).2.users →
      u ∈ db.users ∨ (u.status = "pending" ∧ ∀ v ∈ db.users, v.email ≠ u.email) := by
    intro db req u hmem
    by_cases hv : registerValid req.name req.email req.password req.role
    · cases hf : findUserByEmail db req.email with
      | some w => simp [register, hv, hf] at hmem; exact .inl hmem
      | none =>
        simp [register, hv, hf] at hmem
        rcases hmem with h | h
        · exact .inl h
        · right
          have hf2 : db.users.find? (fun x => x.email = req.email) = none := hf
          refine ⟨by rw [h], fun v hvmem => ?_⟩
          have hv2 := List.find?_eq_none.mp hf2 v hvmem
          rw [h]
          simpa using hv2
    · simp [register, hv] at hmem; exact .inl hmem
  have hver : ∀ (db : DB) (req : VerifyReq), ∀ u ∈ (verifyHandler db req).2.users,
      ∃ a ∈ db.users, u = a ∨ u = { a with status := "active" } := by
    intro db req u hmem
    cases hc : totpCheck req.otp (req.email ++ "soz") req.now with
    | false => simp [verifyHandler, hc] at hmem; exact ⟨u, hmem, .inl rfl⟩
    | true =>
      cases hf : findUserByEmail db req.email with
      | none => simp [verifyHandler, hc, hf] at hmem; exact ⟨u, hmem, .inl rfl⟩
      | some w =>
        simp [verifyHandler, hc, hf] at hmem
        obtain ⟨a, ha, hau⟩ := hmem
        by_cases he : a.email = req.email
        · exact ⟨a, ha, .inr (by rw [← hau]; simp [he])⟩
        · exact ⟨a, ha, .inl (by rw [← hau]; simp [he])⟩
  refine ⟨?_, ?_, ?_⟩
  · intro db req u hmem hnew
    rcases hreg db req u hmem with h | h
    · exact absurd h hnew
    · exact h.1
  · intro db req m hok u hmem hemail
    cases hc : totpCheck req.otp (req.email ++ "soz") req.now with
    | false => simp [verifyHandler, hc] at hok
    | true =>
      cases hf : findUserByEmail db req.email with
      | none => simp [verifyHandler, hc, hf] at hok
      | some w =>
        simp [verifyHandler, hc, hf] at hmem
        obtain ⟨a, ha, hau⟩ := hmem
        by_cases he : a.email = req.email
        · rw [← hau]; simp [he]
        · rw [← hau] at hemail; simp [he] at hemail
  · intro db op u2 hmem
    cases op with
    | opRegister req =>
      rcases hreg db req u2 hmem with h | h
      · exact .inl ⟨u2, h, .inl rfl⟩
      · exact .inr h
    | opVerify req =>
      obtain ⟨a, ha, hau⟩ := hver db req u2 hmem
      exact .inl ⟨a, ha, hau⟩
    | opLogin req =>
      rw [show applyOp db (.opLogin req) = (login db req).2 from rfl,
        login_users_unchanged] at hmem
      exact .inl ⟨u2, hmem, .inl rfl⟩
    | opSendOtp email =>
      rw [show applyOp db (.opSendOtp email) = (sendOtp db email).2 from rfl,
        sendOtp_db_unchanged] at hmem
      exact .inl ⟨u2, hmem, .inl rfl⟩
    | opMe h ip now => exact .inl ⟨u2, hmem, .inl rfl⟩
    | opMySessions h now => exact .inl ⟨u2, hmem, .inl rfl⟩

/-- C6 witness: on a database with a pending user, `/auth/verify` with
that user's currently valid OTP leaves the user active, via
`status_state_machine` at concrete inputs. -/
theorem status_state_machine_witness :
    ({ id := 3, name := "Carl", email := "c@y.io", password := bcryptHash "pass123",
       role := "user", status := "active" } : User).status = "active" :=
  status_state_machine.2.1 demoPendingDB demoVerifyReq "User verified!" (by decide)
    { id := 3, name := "Carl", email := "c@y.io", password := bcryptHash "pass123",
      role := "user", status := "active" } (by decide) rfl

/-- The session-creating row of a successful first login. -/
theorem login_step_sessions (db : DB) (req : LoginReq) (u : User)
    (hu : findUserByEmail db req.email = some u)
    (hact : u.status = "active")
    (hpw : bcryptCompare req.password u.password = true) :
    sessionsFor (login db req).2 u.id req.ip =
      (if sessionsFor db u.id req.ip = [] then
        [{ id := db.nextSessionId, ip := req.ip, data := deviceData req.userAgent,
           userId := u.id }]
       else sessionsFor db u.id req.ip) := by
  unfold login
  rw [hu]
  simp only [hact, ne_eq, not_true_eq_false, if_false, hpw, Bool.not_true,
    Bool.false_eq_true, ite_false, ite_true]
  cases hfs : findSession db req.ip u.id with
  | some s =>
    have hfs2 : db.sessions.find? (fun s => s.ip = req.ip && s.userId = u.id) =
        some s := hfs
    have hsmem : s ∈ db.sessions := List.mem_of_find?_eq_some hfs2
    have hsp := List.find?_some hfs2
    have hne : sessionsFor db u.id req.ip ≠ [] :=
      List.ne_nil_of_mem (List.mem_filter.mpr ⟨hsmem, hsp⟩)
    simp [hne]
  | none =>
    have hfs2 : db.sessions.find? (fun s => s.ip = req.ip && s.userId = u.id) =
        none := hfs
    have hnil : sessionsFor db u.id req.ip = [] := by
      rw [sessionsFor, List.filter_eq_nil_iff]
      intro s hs
      have := List.find?_eq_none.mp hfs2 s hs
      simpa using this
    rw [if_pos hnil]
    have hnil2 : List.filter
        (fun s => decide (s.ip = req.ip) && decide (s.userId = u.id))
        db.sessions = [] := hnil
    simp [sessionsFor, List.filter_append, hnil2]

/-- Once a (userId, ip) session row exists and the credentials stay
valid, further sequential logins leave the matching rows untouched. -/
theorem loginN_stable (req : LoginReq) (u : User)
    (hact : u.status = "active")
    (hpw : bcryptCompare req.password u.password = true) :
    ∀ (n : Nat) (db : DB), findUserByEmail db req.email = some u →
      sessionsFor db u.id req.ip ≠ [] →
      sessionsFor (loginN n db req) u.id req.ip = sessionsFor db u.id req.ip := by
  intro n
  induction n with
  | zero => intro db _ _; rfl
  | succ m ih =>
    intro db hu hne
    have hu2 : findUserByEmail (login db req).2 req.email = some u := by
      rw [findUserByEmail, login_users_unchanged]; exact hu
    have hsess : sessionsFor (login db req).2 u.id req.ip =
        sessionsFor db u.id req.ip := by
      rw [login_step_sessions db req u hu hact hpw, if_neg hne]
    have : loginN (m + 1) db req = loginN m (login db req).2 req := rfl
    rw [this, ih (login db req).2 hu2 (by rw [hsess]; exact hne), hsess]

/-- C1: starting from a state with no session row for the caller's
(userId, ip) pair, any number n ≥ 1 of sequential successful logins
from that pair leaves exactly one matching session row, and the rows
after n logins are exactly the rows after the first login (the row
created first is never updated by later logins). -/
theorem session_row_unique_after_logins (db : DB) (req : LoginReq) (u : User)
    (n : Nat) (hn : 1 ≤ n)
    (hu : findUserByEmail db req.email = some u)
    (hact : u.status = "active")
    (hpw : bcryptCompare req.password u.password = true)
    (h0 : sessionsFor db u.id req.ip = []) :
    countSessions (loginN n db req) u.id req.ip = 1 ∧
    sessionsFor (loginN n db req) u.id req.ip =
      sessionsFor (loginN 1 db req) u.id req.ip := by
  obtain ⟨m, rfl⟩ : ∃ m, n = m + 1 := ⟨n - 1, (Nat.succ_pred_eq_of_pos hn).symm⟩
  have hu2 : findUserByEmail (login db req).2 req.email = some u := by
    rw [findUserByEmail, login_users_unchanged]; exact hu
  have h1 : sessionsFor (login db req).2 u.id req.ip =
      [{ id := db.nextSessionId, ip := req.ip, data := deviceData req.userAgent,
         userId := u.id }] := by
    rw [login_step_sessions db req u hu hact hpw, if_pos h0]
  have hm : loginN (m + 1) db req = loginN m (login db req).2 req := rfl
  have hstab := loginN_stable req u hact hpw m (login db req).2 hu2
    (by rw [h1]; exact List.cons_ne_nil _ _)
  have hone : loginN 1 db req = (login db req).2 := rfl
  constructor
  · rw [countSessions, hm, hstab, h1]
    rfl
  · rw [hm, hstab, hone, h1]

/-- C1 witness: three sequential logins by the demo user from one IP
leave exactly one matching session row, via
`session_row_unique_after_logins` at concrete inputs. -/
theorem session_row_unique_after_logins_witness :
    countSessions (loginN 3 demoDB demoLoginReq) 1 "203.0.113.7" = 1 :=
  (session_row_unique_after_logins demoDB demoLoginReq demoUser 3
    (by decide) (by decide) rfl (by decide) (by decide)).1

/-- C8: for a fixed secret the generated code depends only on the
30-second time step, so two calls in one step agree and `check` accepts
the code within that step; `check` accepts exactly the submitted
email's current code, hence rejects a code generated for a different
email whenever the two codes differ; and `check` is a total boolean
function of its inputs. -/
theorem totp_stability_and_rejection (s e1 e2 c : String) (t t1 t2 : Nat)
    (hstep : t1 / 30 = t2 / 30) :
    totpGenerate s t1 = totpGenerate s t2 ∧
    totpCheck (totpGenerate s t1) s t2 = true ∧
    (totpCheck c (e1 ++ "soz") t = true ↔ c = totpGenerate (e1 ++ "soz") t) ∧
    (totpGenerate (e1 ++ "soz") t ≠ totpGenerate (e2 ++ "soz") t →
      totpCheck (totpGenerate (e2 ++ "soz") t) (e1 ++ "soz") t = false) ∧
    (totpCheck c s t = true ∨ totpCheck c s t = false) := by
  have hg : totpGenerate s t1 = totpGenerate s t2 := by
    unfold totpGenerate
    rw [hstep]
  refine ⟨hg, by simp [totpCheck, hg], by simp [totpCheck], ?_, ?_⟩
  · intro hne
    simp only [totpCheck, decide_eq_false_iff_not]
    exact fun h => hne h.symm
  · cases hb : totpCheck c s t with
    | false => exact .inr rfl
    | true => exact .inl rfl

/-- C8 witness: the demo email's code is stable across one step and the
check rejects another email's differing code, via
`totp_stability_and_rejection` at concrete inputs. -/
theorem totp_stability_and_rejection_witness :
    totpGenerate "a@example.comsoz" 59 = totpGenerate "a@example.comsoz" 31 ∧
    totpCheck (totpGenerate ("b@example.com" ++ "soz") 0)
      ("a@example.com" ++ "soz") 0 = false := by
  have h := totp_stability_and_rejection "a@example.comsoz" "a@example.com"
    "b@example.com" "x" 0 59 31 (by decide)
  exact ⟨h.1, h.2.2.2.1 (by decide)⟩

/-- C4 (behaviour at the failing input): `/auth/verify` with a
currently valid OTP for an email that has no user answers 404 "User
with this email not found", not the documented 400; an invalid OTP
answers 400 "Invalid OTP". -/
theorem verify_unknown_user_gives_404 :
    verifyHandler demoDB
      { email := "b@x.io", otp := totpGenerate "b@x.iosoz" 0, now := 0 } =
      (.err 404 "User with this email not found", demoDB) ∧
    verifyHandler demoDB
      { email := "b@x.io", otp := "000000", now := 0 } =
      (.err 400 "Invalid OTP", demoDB) := by
  constructor <;> decide

end Hw
